import Mathlib

/-!
Shallow embedding of the "kitchen" restaurant-ordering app (`src/app.py`):
the session cart, the cart/checkout computation, currency formatting of the
checkout message, the dual-backend startup selection, the JSON meals API,
and the leaderboard save/load endpoints.

SQLite `REAL` prices are modelled as exact rationals (`ℚ`); Python's
`"{:,.2f}"` formatting is modelled on exact hundredths (every amount the
claims exercise is an exact multiple of 0.01, where binary-float and exact
formatting agree).  Python dicts (the session cart) are modelled as
insertion-ordered association lists with unique keys.
-/

namespace Kitchen

/-- A row of the relational `meals` table
(`id INTEGER PRIMARY KEY AUTOINCREMENT, name, description, price REAL,
image, category`).  `price` is modelled as an exact rational. -/
structure Meal where
  id : Nat
  name : String
  description : String
  price : ℚ
  image : String
  category : String
deriving Repr, DecidableEq

/-- The session cart: `session['cart']` is a Python dict mapping the
stringified meal id to its quantity; modelled as an insertion-ordered
association list. -/
abbrev Cart := List (String × Nat)

/-- `cart.get(k, 0)`: the quantity stored under key `k`, defaulting to 0. -/
def getQty (cart : Cart) (k : String) : Nat :=
  match cart.lookup k with
  | some q => q
  | none => 0

/-- `cart[k] = q` on a Python dict: update the entry in place if the key is
present, append it otherwise. -/
def setQty : Cart → String → Nat → Cart
  | [], k, q => [(k, q)]
  | (k0, q0) :: rest, k, q =>
    if k0 = k then (k, q) :: rest else (k0, q0) :: setQty rest k q

/-- `add_to_cart` (src/app.py:162-167):
`cart[str(meal_id)] = cart.get(str(meal_id), 0) + 1`. -/
def add_to_cart (cart : Cart) (mealId : String) : Cart :=
  setQty cart mealId (getQty cart mealId + 1)

/-- `remove_from_cart` (src/app.py:189-194): `cart.pop(str(meal_id), None)`.
On a dict (unique keys) this deletes the entry for the key if present and
does nothing otherwise; modelled as dropping every entry with that key. -/
def remove_from_cart (cart : Cart) (mealId : String) : Cart :=
  cart.filter (fun kv => kv.1 ≠ mealId)

/-- The key under which a meal is stored in the cart: `str(meal['id'])`. -/
def stringId (m : Meal) : String := toString m.id

/-- Whether a catalog meal is referenced by the cart: the SQL filter
`id IN (cart keys)`. -/
def inCart (cart : Cart) (m : Meal) : Bool :=
  cart.any (fun kv => kv.1 = stringId m)

/-- `SELECT * FROM meals WHERE id IN (cart keys)` (src/app.py:183, 210):
the catalog rows referenced by the cart, in stored (primary-key) order. -/
def find_by_ids (catalog : List Meal) (cart : Cart) : List Meal :=
  catalog.filter (inCart cart)

/-- The quantity of a resolved meal: `cart[str(meal['id'])]`. -/
def qtyOf (cart : Cart) (m : Meal) : Nat := getQty cart (stringId m)

/-- One line amount: `meal['price'] * cart[str(meal['id'])]`. -/
def lineTotal (cart : Cart) (m : Meal) : ℚ :=
  m.price * (qtyOf cart m : ℚ)

/-- `total = sum(meal['price'] * cart[str(meal['id'])] for meal in meals)`
(src/app.py:185, 212), where `meals` are the resolved catalog rows. -/
def cartTotal (cart : Cart) (catalog : List Meal) : ℚ :=
  ((find_by_ids catalog cart).map (lineTotal cart)).sum

/-! ### Currency formatting: Python `"{:,.2f}"` on exact hundredths -/

/-- Insert a comma after every third element of a reversed digit list
(thousands grouping, least-significant digit first). -/
def commaGroupRev : List Char → List Char
  | a :: b :: c :: d :: rest => a :: b :: c :: ',' :: commaGroupRev (d :: rest)
  | ds => ds

/-- Group the decimal digits of the integer part with `,` every three,
as Python's `","` format option does. -/
def groupThousands (s : String) : String :=
  String.mk (commaGroupRev s.data.reverse).reverse

/-- Render `n < 100` as exactly two digits. -/
def twoDigits (n : Nat) : String :=
  if n < 10 then "0" ++ toString n else toString n

/-- Format a nonnegative amount given in cents with thousands separators and
two decimal places. -/
def formatCents (cents : Nat) : String :=
  groupThousands (toString (cents / 100)) ++ "." ++ twoDigits (cents % 100)

/-- Round a nonnegative rational to the nearest integer (half up):
`⌊q + 1/2⌋` computed on the reduced numerator and denominator. -/
def ratRoundNearest (q : ℚ) : Int :=
  (2 * q.num + q.den) / (2 * (q.den : Int))

/-- Python's `"{:,.2f}"` applied to a nonnegative amount, modelled on exact
rationals: round to the nearest hundredth and format.  (On the exact
multiples of 0.01 that the program produces, no rounding occurs at all.) -/
def fmtAmount (q : ℚ) : String :=
  formatCents (ratRoundNearest (q * 100)).toNat

/-! ### Checkout message (src/app.py:214-222) -/

/-- One order line:
`f"{meal['name']} x{qty} = ₦{meal['price'] * qty:,.2f}"`. -/
def checkoutLine (cart : Cart) (m : Meal) : String :=
  m.name ++ " x" ++ toString (qtyOf cart m) ++ " = ₦" ++ fmtAmount (lineTotal cart m)

/-- `order_details = "\n".join(...)` over the resolved meals. -/
def orderDetails (cart : Cart) (catalog : List Meal) : String :=
  String.intercalate "\n" ((find_by_ids catalog cart).map (checkoutLine cart))

/-- `message = f"New Order:\n{order_details}\n\nTotal: ₦{total:,.2f}"`. -/
def checkoutMessage (cart : Cart) (catalog : List Meal) : String :=
  "New Order:\n" ++ orderDetails cart catalog ++ "\n\nTotal: ₦"
    ++ fmtAmount (cartTotal cart catalog)

/-! ### Percent encoding (`urllib.parse.quote`) and the share link -/

/-- Uppercase hexadecimal digit. -/
def hexDigitChar (n : Nat) : Char :=
  if n < 10 then Char.ofNat (48 + n) else Char.ofNat (55 + n)

/-- A byte rendered as `%XX`. -/
def byteHex (b : Nat) : String :=
  "%" ++ String.mk [hexDigitChar (b / 16), hexDigitChar (b % 16)]

/-- UTF-8 encoding of a code point, as byte values. -/
def utf8Bytes (n : Nat) : List Nat :=
  if n < 128 then [n]
  else if n < 2048 then [192 + n / 64, 128 + n % 64]
  else if n < 65536 then [224 + n / 4096, 128 + (n / 64) % 64, 128 + n % 64]
  else [240 + n / 262144, 128 + (n / 4096) % 64, 128 + (n / 64) % 64, 128 + n % 64]

/-- `urllib.parse.quote` leaves letters, digits, `_.-~` and (by its default
`safe` argument) `/` unescaped. -/
def quoteSafe (c : Char) : Bool :=
  c.isAlphanum || c = '_' || c = '.' || c = '-' || c = '~' || c = '/'

/-- Encode a single character as `urllib.parse.quote` does. -/
def percentEncodeChar (c : Char) : String :=
  if quoteSafe c then String.singleton c
  else String.join ((utf8Bytes c.toNat).map byteHex)

/-- `urllib.parse.quote(message)` (src/app.py:219). -/
def percentEncode (s : String) : String :=
  String.join (s.data.map percentEncodeChar)

/-- `f"https://wa.me/2349061120754?text={encoded_message}"` (src/app.py:220). -/
def whatsappUrl (message : String) : String :=
  "https://wa.me/2349061120754?text=" ++ percentEncode message

/-! ### The `/cart` and `/checkout` routes -/

/-- The data rendered by the `/cart` route (src/app.py:169-187): the resolved
meals and the running total (empty cart short-circuits to `([], 0)`). -/
def cartPage (cart : Cart) (catalog : List Meal) : List Meal × ℚ :=
  if cart.isEmpty then ([], 0)
  else (find_by_ids catalog cart, cartTotal cart catalog)

/-- Outcome of the `/checkout` route: either the checkout page is rendered
(empty cart) or the browser is redirected to the share link. -/
inductive CheckoutResult where
  | page (meals : List Meal) (total : ℚ)
  | redirect (url : String)
deriving Repr

/-- `session.get('cart', {})`. -/
def getCart (sess : Option Cart) : Cart := sess.getD []

/-- The `/checkout` route (src/app.py:196-222) as a function from the session
state (whether a cart is stored, and its contents) to the new session state
and the response.  On the non-empty path the cart is resolved, the message
built and encoded, `session.pop('cart', None)` runs, and the redirect is
returned. -/
def checkout (sess : Option Cart) (catalog : List Meal) : Option Cart × CheckoutResult :=
  let cart := getCart sess
  if cart.isEmpty then (sess, .page [] 0)
  else (none, .redirect (whatsappUrl (checkoutMessage cart catalog)))

/-! ### Startup backend selection (src/app.py:29-65) -/

/-- The environment at startup: whether `MONGODB_URL` is set, and whether the
`server_info()` probe would succeed. -/
structure StartupConfig where
  mongoUrlConfigured : Bool
  mongoReachable : Bool

/-- The process-lifetime state fixed at import time: the `USE_MONGO` flag and
whether `init_db` created the relational `meals` table. -/
structure StartupState where
  useMongo : Bool
  sqliteMealsTable : Bool
deriving Repr, DecidableEq

/-- Module initialization: `USE_MONGO = bool(os.getenv('MONGODB_URL'))`, the
`server_info()` probe inside `try/except` (failure resets `USE_MONGO` to
`False`), then `init_db()` which creates the `meals` table iff `USE_MONGO` is
false.  This runs once at import; request handlers receive the resulting
`StartupState` as an immutable parameter. -/
def startup (cfg : StartupConfig) : StartupState :=
  let useMongo0 := cfg.mongoUrlConfigured
  let useMongo1 := if useMongo0 then cfg.mongoReachable else useMongo0
  { useMongo := useMongo1, sqliteMealsTable := !useMongo1 }

/-! ### The meals JSON API (src/app.py:224-290) -/

/-- A document of the Mongo `meals` collection: `_id` is the ObjectId
(an opaque string here); `category` may be absent
(`meal.get('category', 'Meals')`). -/
structure MongoMeal where
  oid : String
  name : String
  description : String
  price : ℚ
  image : String
  category : Option String
deriving Repr, DecidableEq

/-- The two persistent backends.  Exactly one is consulted per request,
according to `USE_MONGO`; both lists are in insertion order. -/
structure Store where
  sqliteMeals : List Meal
  mongoMeals : List MongoMeal
deriving Repr, DecidableEq

/-- The JSON value placed in the `id` field of a meal object: `str(meal['_id'])`
produces a string, `meal['id']` a number. -/
inductive JsonId where
  | jstr (s : String)
  | jnum (n : Nat)
deriving Repr, DecidableEq

/-- One element of the `/api/meals` response. -/
structure ApiMeal where
  id : JsonId
  name : String
  description : String
  price : ℚ
  image : String
  category : String
deriving Repr, DecidableEq

/-- Insertion step for sorting meals by numeric id, descending. -/
def insertByIdDesc (m : Meal) : List Meal → List Meal
  | [] => [m]
  | x :: xs => if x.id ≤ m.id then m :: x :: xs else x :: insertByIdDesc m xs

/-- `SELECT * FROM meals ORDER BY id DESC` (src/app.py:74). -/
def get_all_meals_relational (meals : List Meal) : List Meal :=
  meals.foldr insertByIdDesc []

/-- `mongo_meals.find().sort("_id", -1)` (src/app.py:70): ObjectIds grow with
insertion time, so newest-first is the reverse of insertion order. -/
def get_all_meals_mongo (meals : List MongoMeal) : List MongoMeal :=
  meals.reverse

/-- Outcome of `/api/meals`: the serialized JSON list, or an unhandled
exception that the framework surfaces as a 500 server error. -/
inductive ApiMealsResponse where
  | ok (meals : List ApiMeal)
  | error500
deriving Repr, DecidableEq

/-- The `/api/meals` route (src/app.py:225-238).  Every row is serialized
with `'category': meal.get('category', 'Meals')` (line 236).  Mongo
documents are dicts, so `.get` works and the id is `str(meal['_id'])`.
Under SQLite the rows are `sqlite3.Row` objects, which have no `.get`
method: serializing the first row raises `AttributeError`, which escapes
the handler as a 500 server error, so any non-empty relational table
yields no meal objects at all, while an empty table yields the empty list
(the loop body never runs). -/
def api_meals (useMongo : Bool) (store : Store) : ApiMealsResponse :=
  if useMongo then
    .ok ((get_all_meals_mongo store.mongoMeals).map fun m =>
      { id := .jstr m.oid, name := m.name, description := m.description,
        price := m.price, image := m.image, category := m.category.getD "Meals" })
  else
    match get_all_meals_relational store.sqliteMeals with
    | [] => .ok []
    | _ :: _ => .error500

/-- A JSON API response: `{'message': ...}` with status 200, or
`{'error': ...}` with the given status. -/
inductive ApiResp where
  | msg (text : String)
  | err (status : Nat) (text : String)
deriving Repr, DecidableEq

/-- The request body of `/api/add_meal` and `/api/update_meal`, after the
`data.get(...)` defaulting. -/
structure MealInput where
  name : String
  description : String
  price : ℚ
  image : String
  category : String
deriving Repr, DecidableEq

/-- `/api/add_meal` (src/app.py:251-268): inserts into the Mongo collection
when `USE_MONGO` holds (`newId` is the ObjectId Mongo assigns), otherwise
answers `{'error': 'MongoDB not available'}, 500` leaving the store alone. -/
def api_add_meal (useMongo : Bool) (store : Store) (input : MealInput)
    (newId : String) : Store × ApiResp :=
  if useMongo then
    ({ store with mongoMeals := store.mongoMeals ++
        [{ oid := newId, name := input.name, description := input.description,
           price := input.price, image := input.image,
           category := some input.category }] },
      .msg "Meal added successfully")
  else (store, .err 500 "MongoDB not available")

/-- `/api/update_meal/<meal_id>` (src/app.py:270-283): `$set` on the document
whose `_id` matches (ObjectIds are unique), else the same 500 error. -/
def api_update_meal (useMongo : Bool) (store : Store) (mealId : String)
    (input : MealInput) : Store × ApiResp :=
  if useMongo then
    ({ store with mongoMeals := store.mongoMeals.map (fun m =>
        if m.oid = mealId then
          { m with
            name := input.name,
            description := input.description,
            price := input.price,
            image := input.image,
            category := some input.category }
        else m) },
      .msg "Meal updated successfully")
  else (store, .err 500 "MongoDB not available")

/-- `/api/delete_meal/<meal_id>` (src/app.py:285-290): `delete_one` on the
matching `_id` (unique), else the same 500 error. -/
def api_delete_meal (useMongo : Bool) (store : Store) (mealId : String) :
    Store × ApiResp :=
  if useMongo then
    ({ store with mongoMeals := store.mongoMeals.filter (fun m => m.oid ≠ mealId) },
      .msg "Meal deleted successfully")
  else (store, .err 500 "MongoDB not available")

/-! ### The leaderboard API (src/app.py:292-324) -/

/-- A leaderboard document, after the `entry.get(...)` defaulting applied on
save: `rank, player, score, img`. -/
structure LbEntry where
  rank : Int
  player : String
  score : Int
  img : String
deriving Repr, DecidableEq

/-- Insertion step for sorting leaderboard entries by rank, ascending. -/
def insertByRank (e : LbEntry) : List LbEntry → List LbEntry
  | [] => [e]
  | x :: xs => if e.rank ≤ x.rank then e :: x :: xs else x :: insertByRank e xs

/-- `mongo_leaderboard.find().sort("rank", 1)`. -/
def sortByRank (l : List LbEntry) : List LbEntry :=
  l.foldr insertByRank []

/-- `GET /api/leaderboard` (src/app.py:293-304): the stored entries sorted by
rank under Mongo, the empty list otherwise. -/
def get_leaderboard (useMongo : Bool) (entries : List LbEntry) : List LbEntry :=
  if useMongo then sortByRank entries else []

/-- `POST /api/leaderboard` (src/app.py:306-324).  `data` is the parsed JSON
body; `if not data` is Python truthiness, so the empty list is rejected with
`{'error': 'No data received'}, 400` before anything is deleted.  Otherwise,
under Mongo, `delete_many({})` followed by one insert per entry replaces the
stored entries with `data`. -/
def save_leaderboard (useMongo : Bool) (entries : List LbEntry)
    (data : List LbEntry) : List LbEntry × ApiResp :=
  if data.isEmpty then (entries, .err 400 "No data received")
  else if useMongo then (data, .msg "Leaderboard saved")
  else (entries, .err 500 "MongoDB not available")

/-! ### Spec-side description of the grand total

The specification describes the grand total from the cart's side: "the exact
sum of `price_i * quantity_i` over meals present in both cart and catalog".
The following definitions transcribe that sentence (not the code) so the
code's total can be proved to refine it. -/

/-- Whether a cart key resolves to some catalog meal. -/
def keyResolves (catalog : List Meal) (k : String) : Bool :=
  catalog.any (fun m => stringId m = k)

/-- The price of the catalog meal a key resolves to (0 if none). -/
def priceOf (catalog : List Meal) (k : String) : ℚ :=
  match catalog.find? (fun m => stringId m = k) with
  | some m => m.price
  | none => 0

/-- Stated from the spec's words: the sum of `price_i * quantity_i` over
exactly the cart entries whose meal identifier is present in the catalog. -/
def specGrandTotal (cart : Cart) (catalog : List Meal) : ℚ :=
  ((cart.filter (fun kv => keyResolves catalog kv.1)).map
    (fun kv => priceOf catalog kv.1 * (kv.2 : ℚ))).sum

/-! ### Concrete fixtures (the spec's worked example) -/

/-- Catalog meal 3 of the spec's example: "Jollof Rice", price 1500.00. -/
def exMeal3 : Meal :=
  { id := 3, name := "Jollof Rice", description := "", price := 1500,
    image := "", category := "Meals" }

/-- Catalog meal 7 of the spec's example: "Chicken", price 2500.00. -/
def exMeal7 : Meal :=
  { id := 7, name := "Chicken", description := "", price := 2500,
    image := "", category := "Meals" }

/-- The example catalog. -/
def exCatalog : List Meal := [exMeal3, exMeal7]

/-- The example cart `{"3": 2, "7": 1}`. -/
def exCart : Cart := [("3", 2), ("7", 1)]

/-- A relational-backend store holding just the example meal 3. -/
def exStoreRel : Store := { sqliteMeals := [exMeal3], mongoMeals := [] }

/-- A relational-backend store holding both example meals. -/
def exStoreRel2 : Store := { sqliteMeals := [exMeal3, exMeal7], mongoMeals := [] }

/-- A request body for the meal write endpoints. -/
def exInput : MealInput :=
  { name := "Suya", description := "", price := 1200, image := "",
    category := "Meals" }

/-! ## Helper lemmas -/

/-- Evaluation helper: on a whole-unit amount the formatter is the cents
formatter at `n * 100` (no rounding happens). -/
theorem fmtAmount_natCast (n : ℕ) : fmtAmount ((n : ℚ)) = formatCents (n * 100) := by
  have h1 : ((n : ℚ) * 100) = ((n * 100 : ℕ) : ℚ) := by push_cast; ring
  rw [fmtAmount, h1, ratRoundNearest, Rat.num_natCast, Rat.den_natCast]
  congr 1
  omega

/-- Looking a key up after a cons. -/
theorem getQty_cons (k0 : String) (q0 : Nat) (rest : Cart) (k : String) :
    getQty ((k0, q0) :: rest) k = if k0 = k then q0 else getQty rest k := by
  by_cases h : k0 = k
  · subst h; simp [getQty, List.lookup]
  · have hb : (k == k0) = false := by
      rw [beq_eq_false_iff_ne]
      exact Ne.symm h
    simp [getQty, List.lookup, h, hb]

/-- The sum over the resolved meals, rewritten as a guarded sum over the
whole catalog. -/
theorem cartTotal_eq_sum_ite (cart : Cart) (catalog : List Meal) :
    cartTotal cart catalog
      = (catalog.map (fun m => if inCart cart m then lineTotal cart m else 0)).sum := by
  unfold cartTotal find_by_ids
  induction catalog with
  | nil => rfl
  | cons m cat ih =>
    cases h : inCart cart m <;> simp [List.filter_cons, h, ih]

/-- Peeling one cart entry off the guarded catalog sum: if the entry's key is
absent from the rest of the cart and catalog ids are unique, the sum grows by
exactly that entry's `price * quantity` (when its meal exists). -/
theorem sum_ite_cons_cart (k : String) (q : Nat) (rest : Cart)
    (hk : ∀ kv ∈ rest, kv.1 ≠ k) (catalog : List Meal) :
    (catalog.map stringId).Nodup →
    (catalog.map (fun m =>
        if inCart ((k, q) :: rest) m then lineTotal ((k, q) :: rest) m else 0)).sum
      = (catalog.map (fun m => if inCart rest m then lineTotal rest m else 0)).sum
        + (if keyResolves catalog k then priceOf catalog k * (q : ℚ) else 0) := by
  induction catalog with
  | nil => intro _; simp [keyResolves]
  | cons m cat ih =>
    intro hnd
    rw [List.map_cons, List.nodup_cons] at hnd
    obtain ⟨hm_not, hnd_cat⟩ := hnd
    by_cases hkm : k = stringId m
    · have h_in : inCart ((k, q) :: rest) m = true := by
        simp [inCart, List.any_cons, hkm]
      have h_notin : inCart rest m = false := by
        by_contra hb
        rw [Bool.not_eq_false] at hb
        simp only [inCart, List.any_eq_true, decide_eq_true_eq] at hb
        obtain ⟨kv, hmem, heq⟩ := hb
        exact hk kv hmem (heq.trans hkm.symm)
      have h_line : lineTotal ((k, q) :: rest) m = m.price * (q : ℚ) := by
        simp [lineTotal, qtyOf, getQty_cons, hkm]
      have h_res : keyResolves (m :: cat) k = true := by
        simp [keyResolves, List.any_cons, hkm]
      have h_price : priceOf (m :: cat) k = m.price := by
        simp [priceOf, List.find?, hkm]
      have h_res_cat : keyResolves cat k = false := by
        by_contra hb
        rw [Bool.not_eq_false] at hb
        simp only [keyResolves, List.any_eq_true, decide_eq_true_eq] at hb
        obtain ⟨m2, hmem, heq⟩ := hb
        have h2 : stringId m2 = stringId m := heq.trans hkm
        exact hm_not (h2 ▸ List.mem_map_of_mem stringId hmem)
      have hA : (if inCart ((k, q) :: rest) m then lineTotal ((k, q) :: rest) m else 0)
          = m.price * (q : ℚ) := by
        simp [h_in, h_line]
      have hB : (if inCart rest m then lineTotal rest m else 0) = 0 := by
        simp [h_notin]
      have hC : (if keyResolves (m :: cat) k then priceOf (m :: cat) k * (q : ℚ) else 0)
          = m.price * (q : ℚ) := by
        simp [h_res, h_price]
      have hz : (if keyResolves cat k then priceOf cat k * (q : ℚ) else 0) = 0 := by
        simp [h_res_cat]
      rw [List.map_cons, List.map_cons, List.sum_cons, List.sum_cons,
        hA, hB, hC, ih hnd_cat, hz]
      ring
    · have hms : ¬ stringId m = k := fun h => hkm h.symm
      have h_in : inCart ((k, q) :: rest) m = inCart rest m := by
        simp [inCart, List.any_cons, hkm]
      have h_line : lineTotal ((k, q) :: rest) m = lineTotal rest m := by
        simp [lineTotal, qtyOf, getQty_cons, hkm]
      have h_res : keyResolves (m :: cat) k = keyResolves cat k := by
        simp [keyResolves, List.any_cons, hms]
      have h_price : priceOf (m :: cat) k = priceOf cat k := by
        simp [priceOf, List.find?, hms]
      have hA : (if inCart ((k, q) :: rest) m then lineTotal ((k, q) :: rest) m else 0)
          = (if inCart rest m then lineTotal rest m else 0) := by
        rw [h_in, h_line]
      have hC : (if keyResolves (m :: cat) k then priceOf (m :: cat) k * (q : ℚ) else 0)
          = (if keyResolves cat k then priceOf cat k * (q : ℚ) else 0) := by
        rw [h_res, h_price]
      rw [List.map_cons, List.map_cons, List.sum_cons, List.sum_cons,
        hA, hC, ih hnd_cat]
      ring

/-- Peeling one cart entry off the spec-side sum. -/
theorem specGrandTotal_cons (k : String) (q : Nat) (rest : Cart)
    (catalog : List Meal) :
    specGrandTotal ((k, q) :: rest) catalog
      = (if keyResolves catalog k then priceOf catalog k * (q : ℚ) else 0)
        + specGrandTotal rest catalog := by
  unfold specGrandTotal
  cases h : keyResolves catalog k <;> simp [List.filter_cons, h]

/-- Writing a key stores exactly that quantity under it. -/
theorem getQty_setQty_self (cart : Cart) (k : String) (q : Nat) :
    getQty (setQty cart k q) k = q := by
  induction cart with
  | nil => simp [setQty, getQty, List.lookup]
  | cons kv rest ih =>
    obtain ⟨k0, q0⟩ := kv
    by_cases h : k0 = k
    · simp [setQty, h, getQty_cons]
    · simp [setQty, h, getQty_cons, ih]

/-- Writing a key leaves every other key's quantity alone. -/
theorem getQty_setQty_ne (cart : Cart) (k : String) (q : Nat) (k2 : String)
    (h : k2 ≠ k) :
    getQty (setQty cart k q) k2 = getQty cart k2 := by
  induction cart with
  | nil =>
    have hb : (k2 == k) = false := beq_eq_false_iff_ne.mpr h
    simp [setQty, getQty, List.lookup, hb]
  | cons kv rest ih =>
    obtain ⟨k0, q0⟩ := kv
    by_cases h0 : k0 = k
    · subst h0
      simp [setQty, getQty_cons, Ne.symm h]
    · simp [setQty, h0, getQty_cons, ih]

/-- Writing a key leaves exactly one entry under it (updating in place when
present, appending when absent). -/
theorem count_keys_setQty (cart : Cart) (k : String) (q : Nat) :
    ((setQty cart k q).map Prod.fst).count k
      = max ((cart.map Prod.fst).count k) 1 := by
  induction cart with
  | nil => simp [setQty]
  | cons kv rest ih =>
    obtain ⟨k0, q0⟩ := kv
    by_cases h : k0 = k
    · subst h
      simp [setQty, List.count_cons]
    · simp [setQty, h, List.count_cons, ih]

/-- A key occurring in no entry has quantity 0. -/
theorem getQty_eq_zero_of_count (cart : Cart) (k : String)
    (h : (cart.map Prod.fst).count k = 0) :
    getQty cart k = 0 := by
  induction cart with
  | nil => simp [getQty, List.lookup]
  | cons kv rest ih =>
    obtain ⟨k0, q0⟩ := kv
    rw [List.map_cons, List.count_cons] at h
    by_cases h0 : k0 = k
    · subst h0
      simp at h
    · rw [getQty_cons, if_neg h0]
      apply ih
      simpa [h0] using h

/-- Dropping one key does not change whether any other meal is in the cart. -/
theorem inCart_remove (cart : Cart) (k : String) (m : Meal)
    (h : stringId m ≠ k) :
    inCart (remove_from_cart cart k) m = inCart cart m := by
  cases hc : inCart cart m
  · by_contra hb
    rw [Bool.not_eq_false] at hb
    simp only [inCart, List.any_eq_true, decide_eq_true_eq] at hb
    obtain ⟨kv, hmem, heq⟩ := hb
    have hmem2 : kv ∈ cart := List.mem_of_mem_filter hmem
    have ht : inCart cart m = true := by
      simp only [inCart, List.any_eq_true, decide_eq_true_eq]
      exact ⟨kv, hmem2, heq⟩
    rw [hc] at ht
    exact Bool.false_ne_true ht
  · simp only [inCart, List.any_eq_true, decide_eq_true_eq] at hc ⊢
    obtain ⟨kv, hmem, heq⟩ := hc
    refine ⟨kv, ?_, heq⟩
    rw [remove_from_cart, List.mem_filter]
    exact ⟨hmem, decide_eq_true (fun he => h (heq.symm.trans he))⟩

/-- Dropping one key does not change any other key's quantity. -/
theorem getQty_remove (cart : Cart) (k k2 : String) (h : k2 ≠ k) :
    getQty (remove_from_cart cart k) k2 = getQty cart k2 := by
  induction cart with
  | nil => rfl
  | cons kv rest ih =>
    obtain ⟨k0, q0⟩ := kv
    rw [remove_from_cart] at ih ⊢
    rw [List.filter_cons]
    by_cases h0 : k0 = k
    · have hne : ¬ k0 = k2 := fun he => h (he.symm.trans h0)
      have hp : decide ((k0, q0).1 ≠ k) = false := by simp [h0]
      rw [hp, if_neg Bool.false_ne_true, getQty_cons, if_neg hne]
      exact ih
    · have hp : decide ((k0, q0).1 ≠ k) = true := by simp [h0]
      rw [hp, if_pos rfl, getQty_cons, getQty_cons]
      by_cases h2 : k0 = k2
      · rw [if_pos h2, if_pos h2]
      · rw [if_neg h2, if_neg h2]
        exact ih

/-- A key that resolves to no catalog meal differs from every catalog id. -/
theorem not_resolves (catalog : List Meal) (k : String)
    (h : keyResolves catalog k = false) :
    ∀ m ∈ catalog, stringId m ≠ k := by
  intro m hmem he
  have ht : keyResolves catalog k = true := by
    simp only [keyResolves, List.any_eq_true, decide_eq_true_eq]
    exact ⟨m, hmem, he⟩
  rw [h] at ht
  exact Bool.false_ne_true ht

/-- Dropping an unresolvable key does not change the resolved meals. -/
theorem find_by_ids_remove (catalog : List Meal) (cart : Cart) (k : String)
    (h : keyResolves catalog k = false) :
    find_by_ids catalog (remove_from_cart cart k) = find_by_ids catalog cart := by
  unfold find_by_ids
  apply List.filter_congr
  intro m hmem
  exact inCart_remove cart k m (not_resolves catalog k h m hmem)

/-- Dropping an unresolvable key does not change the rendered order lines. -/
theorem orderDetails_remove (catalog : List Meal) (cart : Cart) (k : String)
    (h : keyResolves catalog k = false) :
    orderDetails (remove_from_cart cart k) catalog = orderDetails cart catalog := by
  unfold orderDetails
  rw [find_by_ids_remove catalog cart k h]
  congr 1
  apply List.map_congr_left
  intro m hmem
  have hne : stringId m ≠ k :=
    not_resolves catalog k h m (List.mem_of_mem_filter hmem)
  unfold checkoutLine lineTotal qtyOf
  rw [getQty_remove cart k (stringId m) hne]

/-- Inserting a meal into a sorted list never produces the empty list. -/
theorem insertByIdDesc_ne_nil (m : Meal) (l : List Meal) :
    insertByIdDesc m l ≠ [] := by
  cases l with
  | nil => simp [insertByIdDesc]
  | cons x xs =>
    rw [insertByIdDesc]
    split <;> simp

/-- A non-empty meals table stays non-empty after the `ORDER BY id DESC`
sort. -/
theorem get_all_meals_relational_ne_nil (m : Meal) (l : List Meal) :
    get_all_meals_relational (m :: l) ≠ [] := by
  rw [get_all_meals_relational, List.foldr_cons]
  exact insertByIdDesc_ne_nil m (l.foldr insertByIdDesc [])

/-- Dropping an unresolvable key does not change the total. -/
theorem cartTotal_remove (catalog : List Meal) (cart : Cart) (k : String)
    (h : keyResolves catalog k = false) :
    cartTotal (remove_from_cart cart k) catalog = cartTotal cart catalog := by
  unfold cartTotal
  rw [find_by_ids_remove catalog cart k h]
  congr 1
  apply List.map_congr_left
  intro m hmem
  have hne : stringId m ≠ k :=
    not_resolves catalog k h m (List.mem_of_mem_filter hmem)
  unfold lineTotal qtyOf
  rw [getQty_remove cart k (stringId m) hne]

/-! ## Evaluating the worked example -/

/-- The example cart resolves to exactly the two example meals, in catalog
order. -/
theorem find_by_ids_example : find_by_ids exCatalog exCart = [exMeal3, exMeal7] := by
  have h3 : inCart exCart exMeal3 = true := by decide
  have h7 : inCart exCart exMeal7 = true := by decide
  simp [find_by_ids, exCatalog, List.filter_cons, h3, h7]

/-- The example total is 5500.00. -/
theorem cartTotal_example : cartTotal exCart exCatalog = ((5500 : ℕ) : ℚ) := by
  rw [cartTotal, find_by_ids_example]
  have hq3 : qtyOf exCart exMeal3 = 2 := by decide
  have hq7 : qtyOf exCart exMeal7 = 1 := by decide
  simp only [List.map_cons, List.map_nil, List.sum_cons, List.sum_nil, lineTotal]
  rw [hq3, hq7]
  simp only [exMeal3, exMeal7]
  push_cast
  norm_num

/-- The first example order line. -/
theorem checkoutLine_example3 :
    checkoutLine exCart exMeal3 = "Jollof Rice x2 = ₦3,000.00" := by
  have hq : qtyOf exCart exMeal3 = 2 := by decide
  have hl : lineTotal exCart exMeal3 = ((3000 : ℕ) : ℚ) := by
    simp only [lineTotal]
    rw [hq]
    simp only [exMeal3]
    push_cast
    norm_num
  rw [checkoutLine, hq, hl, fmtAmount_natCast]
  decide

/-- The second example order line. -/
theorem checkoutLine_example7 :
    checkoutLine exCart exMeal7 = "Chicken x1 = ₦2,500.00" := by
  have hq : qtyOf exCart exMeal7 = 1 := by decide
  have hl : lineTotal exCart exMeal7 = ((2500 : ℕ) : ℚ) := by
    simp only [lineTotal]
    rw [hq]
    simp only [exMeal7]
    push_cast
    norm_num
  rw [checkoutLine, hq, hl, fmtAmount_natCast]
  decide

/-- The full checkout message built for the example cart. -/
theorem checkoutMessage_example :
    checkoutMessage exCart exCatalog
      = "New Order:\nJollof Rice x2 = ₦3,000.00\nChicken x1 = ₦2,500.00\n\nTotal: ₦5,500.00" := by
  rw [checkoutMessage, orderDetails, find_by_ids_example, cartTotal_example,
    fmtAmount_natCast, List.map_cons, List.map_cons, List.map_nil,
    checkoutLine_example3, checkoutLine_example7]
  decide

/-! ## The claims -/

/-- Claim C1: for every session cart (a dict, so its keys are unique) and
every catalog state (ids are a primary key, so unique), the cart/checkout
computation's grand total equals the exact sum of `price_i * quantity_i`
taken over exactly those meal identifiers present in both the cart mapping
and the catalog store (`specGrandTotal`, transcribed from the spec). -/
theorem cart_checkout_total_eq_spec (cart : Cart) (catalog : List Meal)
    (hm : (catalog.map stringId).Nodup) :
    (cart.map Prod.fst).Nodup →
    cartTotal cart catalog = specGrandTotal cart catalog := by
  induction cart with
  | nil =>
    intro _
    have hnil : List.filter (inCart ([] : Cart)) catalog = [] := by
      apply List.filter_eq_nil_iff.mpr
      intro m _
      simp [inCart]
    rw [cartTotal, find_by_ids, hnil]
    simp [specGrandTotal]
  | cons kv rest ih =>
    intro hc
    obtain ⟨k, q⟩ := kv
    rw [List.map_cons, List.nodup_cons] at hc
    obtain ⟨hk0, hrest⟩ := hc
    have hk : ∀ kv2 ∈ rest, kv2.1 ≠ k := by
      intro kv2 hmem heq
      apply hk0
      show k ∈ List.map Prod.fst rest
      rw [← heq]
      exact List.mem_map_of_mem Prod.fst hmem
    rw [cartTotal_eq_sum_ite, sum_ite_cons_cart k q rest hk catalog hm,
      ← cartTotal_eq_sum_ite, ih hrest, specGrandTotal_cons]
    ring

/-- Witness for claim C1 at the spec's worked example. -/
theorem cart_checkout_total_eq_spec_witness :
    ((exCatalog.map stringId).Nodup ∧ (exCart.map Prod.fst).Nodup)
      ∧ cartTotal exCart exCatalog = specGrandTotal exCart exCatalog :=
  ⟨⟨by decide, by decide⟩,
    cart_checkout_total_eq_spec exCart exCatalog (by decide) (by decide)⟩

/-- Claim C2, counterexample to the claim as stated: the checkout summary
text for the example cart is not the claimed string, because the code
prefixes a `New Order:` header line. -/
theorem checkout_summary_counterexample :
    checkoutMessage exCart exCatalog
      ≠ "Jollof Rice x2 = ₦3,000.00\nChicken x1 = ₦2,500.00\n\nTotal: ₦5,500.00" := by
  rw [checkoutMessage_example]
  decide

/-- Claim C2 (amended): the summary text opens with a header line
`New Order:`, then one line per item `name xqty = ₦amount`, a blank line and
the total; for the example cart it equals the exact string below. -/
theorem checkout_summary_amended :
    checkoutMessage exCart exCatalog
      = "New Order:\nJollof Rice x2 = ₦3,000.00\nChicken x1 = ₦2,500.00\n\nTotal: ₦5,500.00" :=
  checkoutMessage_example

/-- Claim C3 (code bug): `replace_all([])` does not succeed and does not
clear the leaderboard; Python's `if not data` treats the empty list like a
missing body, so the endpoint answers `'No data received'` with status 400
and the prior entries survive: a subsequent `list_sorted_by_rank` returns
them, not the empty sequence. -/
theorem replace_all_empty_rejected :
    save_leaderboard true [{ rank := 1, player := "Ada", score := 5, img := "" }] []
        = ([{ rank := 1, player := "Ada", score := 5, img := "" }],
            ApiResp.err 400 "No data received")
      ∧ get_leaderboard true
          (save_leaderboard true [{ rank := 1, player := "Ada", score := 5, img := "" }] []).1
          ≠ [] := by
  exact ⟨rfl, by decide⟩

/-- Claim C4 (code bug): the claim — every meal object the JSON meals API
returns has a string id, numeric relational ids being normalized at the API
boundary — states the spec's requirement; the code breaks it twice under the
relational backend: serializing any row calls `.get` on a `sqlite3.Row`
(src/app.py:236), raising `AttributeError`, so with a non-empty meals table
the endpoint answers 500 and returns no meal objects at all (and the id it
would have emitted, `meal['id']` at src/app.py:231, is the raw integer, not
a string).  This theorem evaluates the endpoint at the failing input: one
stored relational meal yields the server error, never a meal object. -/
theorem api_meals_relational_crashes :
    api_meals false exStoreRel = ApiMealsResponse.error500
      ∧ api_meals false { sqliteMeals := [], mongoMeals := [] }
          = ApiMealsResponse.ok [] :=
  ⟨rfl, rfl⟩

/-- Claim C5: whenever the `/checkout` route built the share link (the
redirect outcome), the session cart afterwards is the empty mapping,
whatever it held before. -/
theorem checkout_clears_cart (sess : Option Cart) (catalog : List Meal)
    (url : String)
    (h : (checkout sess catalog).2 = CheckoutResult.redirect url) :
    getCart (checkout sess catalog).1 = [] := by
  by_cases he : (getCart sess).isEmpty
  · rw [checkout] at h
    simp only [he, if_pos] at h
    exact CheckoutResult.noConfusion h
  · rw [checkout]
    simp only [he, Bool.false_eq_true, if_false]
    rfl

/-- Witness for claim C5: a one-item cart checks out to a redirect and the
session cart afterwards is empty. -/
theorem checkout_clears_cart_witness :
    getCart (checkout (some [("3", 1)]) []).1 = [] :=
  checkout_clears_cart (some [("3", 1)]) []
    (whatsappUrl (checkoutMessage [("3", 1)] [])) (by rfl)

/-- Claim C6: `add_to_cart` increments the identifier's quantity by 1 with an
absent key treated as 0, touches no other key, and adding the same identifier
twice to a cart not containing it leaves a single entry for it with
quantity 2. -/
theorem add_to_cart_increments (cart : Cart) (k : String) :
    getQty (add_to_cart cart k) k = getQty cart k + 1
      ∧ (∀ k2, k2 ≠ k → getQty (add_to_cart cart k) k2 = getQty cart k2)
      ∧ ((cart.map Prod.fst).count k = 0 →
          ((add_to_cart (add_to_cart cart k) k).map Prod.fst).count k = 1
            ∧ getQty (add_to_cart (add_to_cart cart k) k) k = 2) := by
  refine ⟨getQty_setQty_self cart k (getQty cart k + 1),
    fun k2 h2 => getQty_setQty_ne cart k (getQty cart k + 1) k2 h2, fun habs => ?_⟩
  constructor
  · rw [add_to_cart, count_keys_setQty, add_to_cart, count_keys_setQty, habs]
    omega
  · rw [add_to_cart, getQty_setQty_self]
    rw [add_to_cart, getQty_setQty_self, getQty_eq_zero_of_count cart k habs]

/-- Witness for claim C6 on the empty cart. -/
theorem add_to_cart_increments_witness :
    getQty (add_to_cart [] "3") "3" = getQty ([] : Cart) "3" + 1
      ∧ ((add_to_cart (add_to_cart [] "3") "3").map Prod.fst).count "3" = 1
      ∧ getQty (add_to_cart (add_to_cart [] "3") "3") "3" = 2 :=
  ⟨(add_to_cart_increments [] "3").1,
    ((add_to_cart_increments [] "3").2.2 (by decide)).1,
    ((add_to_cart_increments [] "3").2.2 (by decide)).2⟩

/-- Claim C7: removing an absent meal identifier leaves the cart unchanged
(and raises no error — the operation is total), and after removing any
identifier no entry with that key remains. -/
theorem remove_from_cart_noop_or_delete (cart : Cart) (k : String) :
    (k ∉ cart.map Prod.fst → remove_from_cart cart k = cart)
      ∧ k ∉ (remove_from_cart cart k).map Prod.fst := by
  constructor
  · intro h
    rw [remove_from_cart]
    apply List.filter_eq_self.mpr
    intro kv hmem
    rw [decide_eq_true_eq]
    intro heq
    exact h (heq ▸ List.mem_map_of_mem Prod.fst hmem)
  · intro hmem
    obtain ⟨kv, hkv, heq⟩ := List.mem_map.mp hmem
    rw [remove_from_cart, List.mem_filter] at hkv
    exact (of_decide_eq_true hkv.2) heq

/-- Witness for claim C7: removing the absent key "3" from a one-entry cart
changes nothing, and the key is absent afterwards. -/
theorem remove_from_cart_noop_witness :
    remove_from_cart [("5", 1)] "3" = [("5", 1)]
      ∧ "3" ∉ (remove_from_cart [("5", 1)] "3").map Prod.fst :=
  ⟨(remove_from_cart_noop_or_delete [("5", 1)] "3").1 (by decide),
    (remove_from_cart_noop_or_delete [("5", 1)] "3").2⟩

/-- Claim C8: a cart entry whose meal identifier resolves to no catalog meal
is silently excluded from the computation: the resolved meal rows, the
rendered order lines and the grand total all coincide with those of the cart
with that entry removed, and the computation is total (no error path). -/
theorem stale_entry_excluded (cart : Cart) (catalog : List Meal) (k : String)
    (h : keyResolves catalog k = false) :
    find_by_ids catalog cart = find_by_ids catalog (remove_from_cart cart k)
      ∧ orderDetails cart catalog = orderDetails (remove_from_cart cart k) catalog
      ∧ cartTotal cart catalog = cartTotal (remove_from_cart cart k) catalog :=
  ⟨(find_by_ids_remove catalog cart k h).symm,
    (orderDetails_remove catalog cart k h).symm,
    (cartTotal_remove catalog cart k h).symm⟩

/-- Witness for claim C8: a stale entry "99" in the example cart changes
neither the resolved rows nor the lines nor the total. -/
theorem stale_entry_excluded_witness :
    keyResolves exCatalog "99" = false
      ∧ (find_by_ids exCatalog (exCart ++ [("99", 5)])
            = find_by_ids exCatalog (remove_from_cart (exCart ++ [("99", 5)]) "99")
          ∧ orderDetails (exCart ++ [("99", 5)]) exCatalog
              = orderDetails (remove_from_cart (exCart ++ [("99", 5)]) "99") exCatalog
          ∧ cartTotal (exCart ++ [("99", 5)]) exCatalog
              = cartTotal (remove_from_cart (exCart ++ [("99", 5)]) "99") exCatalog) :=
  ⟨by decide, stale_entry_excluded (exCart ++ [("99", 5)]) exCatalog "99" (by decide)⟩

/-- Claim C9: when a document-store connection string is configured but the
startup probe fails, the fallback is the relational backend: `USE_MONGO`
ends up false and the relational meals table is initialized, instead of a
startup failure.  The probe is part of module initialization (`startup`),
which runs once; request handlers consume the resulting immutable state. -/
theorem startup_fallback (cfg : StartupConfig)
    (hconf : cfg.mongoUrlConfigured = true)
    (hfail : cfg.mongoReachable = false) :
    (startup cfg).useMongo = false ∧ (startup cfg).sqliteMealsTable = true := by
  rw [startup]
  simp [hconf, hfail]

/-- Witness for claim C9 at the concrete configured-but-unreachable
environment. -/
theorem startup_fallback_witness :
    (startup { mongoUrlConfigured := true, mongoReachable := false }).useMongo = false
      ∧ (startup { mongoUrlConfigured := true, mongoReachable := false }).sqliteMealsTable
          = true :=
  startup_fallback { mongoUrlConfigured := true, mongoReachable := false } rfl rfl

/-- Claim C10, counterexample to the claim as stated: the read endpoint does
not serve data from the relational backend — with two stored rows it raises
(`.get` on a `sqlite3.Row`) and answers a 500 server error instead of the
meal list. -/
theorem api_meals_read_not_serving :
    api_meals false exStoreRel2 = ApiMealsResponse.error500 := rfl

/-- Claim C10 (amended): with the relational backend active, each meals
write endpoint (add, update, delete) answers `{'error': 'MongoDB not
available'}` with status 500 and leaves the store untouched; the read
endpoint is the only one that consults the relational backend, and it
returns data only for the empty meals table (the empty list) — any stored
rows make it fail with a 500 server error. -/
theorem api_writes_unavailable_relational (store : Store) (input : MealInput)
    (newId mealId : String) :
    api_add_meal false store input newId
        = (store, ApiResp.err 500 "MongoDB not available")
      ∧ api_update_meal false store mealId input
          = (store, ApiResp.err 500 "MongoDB not available")
      ∧ api_delete_meal false store mealId
          = (store, ApiResp.err 500 "MongoDB not available")
      ∧ (store.sqliteMeals = [] → api_meals false store = ApiMealsResponse.ok [])
      ∧ (store.sqliteMeals ≠ [] →
          api_meals false store = ApiMealsResponse.error500) := by
  refine ⟨?_, ?_, ?_, ?_, ?_⟩
  · rw [api_add_meal, if_neg Bool.false_ne_true]
  · rw [api_update_meal, if_neg Bool.false_ne_true]
  · rw [api_delete_meal, if_neg Bool.false_ne_true]
  · intro h
    rw [api_meals, if_neg Bool.false_ne_true, h]
    rfl
  · intro h
    obtain ⟨m, l, hst⟩ := List.exists_cons_of_ne_nil h
    rw [api_meals, if_neg Bool.false_ne_true, hst]
    cases hg : get_all_meals_relational (m :: l) with
    | nil => exact absurd hg (get_all_meals_relational_ne_nil m l)
    | cons a b => rfl

/-- Witness for claim C10 (amended) at the two-row relational store. -/
theorem api_writes_unavailable_relational_witness :
    api_add_meal false exStoreRel2 exInput "oid1"
        = (exStoreRel2, ApiResp.err 500 "MongoDB not available")
      ∧ exStoreRel2.sqliteMeals ≠ []
      ∧ api_meals false exStoreRel2 = ApiMealsResponse.error500 :=
  ⟨(api_writes_unavailable_relational exStoreRel2 exInput "oid1" "m1").1,
    by decide,
    (api_writes_unavailable_relational exStoreRel2 exInput "oid1" "m1").2.2.2.2
      (by decide)⟩

end Kitchen
